import Mathlib

/-!
Verification development for the TEPSimulation core: a shallow embedding of
the deterministic noise source (`tepsimulation/packages/utils.py`), the
materials and reaction correlations (`tepsimulation/packages/materials.py`),
the flowsheet graph (`tepsimulation/packages/graph/`), and the evaluation
order of `tepsimulation/flowsheet/units.py`, together with theorems settling
the specification claims about them.

Python's mutable module state is passed explicitly: the process-wide PRNG
seed becomes an explicit `ℤ` argument and result, and exceptions become
`Except` / `Option` results.  Python's arbitrary-precision integers are `ℤ`
(Python's `%` with a positive modulus agrees with `Int.emod`); the float
arithmetic relevant to the claims is exact dyadic arithmetic on 32-bit
integers, embedded in `ℚ`, except for the transcendental correlations
(Antoine, Arrhenius) which are embedded in `ℝ`.
-/

namespace TEP

/-- The Python exception classes that the embedded code can raise. -/
inductive PyError where
  | typeError
  | valueError
  | keyError
  | attributeError
  | runtimeError
  | indexError
  | notImplementedError
  deriving DecidableEq, Repr

/-- A Python `dict` built by successive `d[key] = value` assignments,
embedded as the list of assignments in order: a lookup returns the value of
the key's LAST assignment (later assignments overwrite earlier ones). -/
def dict_get {α : Type} (d : List (String × α)) (key : String) : Option α :=
  (d.reverse.find? (fun p => p.1 == key)).map Prod.snd

/-- A Python `d[key] = value` assignment, appended to the assignment list
(`dict_get` reads the last one, so this overwrites). -/
def dict_set {α : Type} (d : List (String × α)) (key : String) (v : α) :
    List (String × α) :=
  d ++ [(key, v)]

namespace Utils

/-- `utils.seed = 0`: the module-level seed at load time, before any
`set_seed` call. -/
def initial_seed : ℤ := 0

/-- `utils.set_seed(new_seed)` called with an integer argument: raises
`ValueError` ("Seed must be a positive integer") when `new_seed <= 0`,
otherwise stores it as the global seed.  The result is the new seed state;
on error the caller's seed state is unchanged, since `set_seed` raises
before the assignment.  (The `None` branch, which draws a fresh random
seed, and the non-int `TypeError` branch are unreachable from `get_seed`,
whose argument is always an integer.) -/
def set_seed (new_seed : ℤ) : Except PyError ℤ :=
  if new_seed ≤ 0 then Except.error PyError.valueError
  else Except.ok new_seed

/-- `utils.get_seed()`: calls `set_seed((seed * 9228907) % 4294967296)` and
returns the (then updated) global seed.  The mod result is never negative,
so `set_seed` raises `ValueError` exactly when it is 0, i.e. when the
current seed is a multiple of 2^32; the seed is then left unchanged.  The
process-wide seed is passed explicitly: the result is
`(returned value, new seed state)` or the raised error. -/
def get_seed (seed : ℤ) : Except PyError (ℤ × ℤ) :=
  match set_seed ((seed * 9228907) % 4294967296) with
  | Except.error e => Except.error e
  | Except.ok new_seed => Except.ok (new_seed, new_seed)

/-- `utils.get_prng()`: returns `2 * get_seed() / 4294967296 - 1`,
propagating a `get_seed` error.  The division by the power of two is exact
on the 32-bit values involved, so the Python float result is embedded
exactly in `ℚ`. -/
def get_prng (seed : ℤ) : Except PyError (ℚ × ℤ) :=
  (get_seed seed).map (fun r => (2 * (r.1 : ℚ) / 4294967296 - 1, r.2))

/-- `utils.get_prng_pos()`: returns `get_seed() / 4294967296`, propagating
a `get_seed` error. -/
def get_prng_pos (seed : ℤ) : Except PyError (ℚ × ℤ) :=
  (get_seed seed).map (fun r => ((r.1 : ℚ) / 4294967296, r.2))

/-- The call `get_prng(i)` appearing in the body of `utils.get_noise`:
`get_prng` is declared with no parameters, so Python raises a `TypeError`
for the one-argument call before any seed update happens. -/
def get_prng_called_with_arg (_arg : ℤ) (_seed : ℤ) : Except PyError (ℚ × ℤ) :=
  Except.error PyError.typeError

/-- `utils.get_noise(stdv)`: starts from `noise = 0`, runs
`for i in range(12): noise += get_prng(i)`, then returns `(noise - 6) * stdv`.
Each loop iteration calls `get_prng` with an argument, which raises. -/
def get_noise (stdv : ℚ) (seed : ℤ) : Except PyError (ℚ × ℤ) :=
  ((List.range 12).foldlM (fun (acc : ℚ × ℤ) (i : ℕ) =>
      (get_prng_called_with_arg (i : ℤ) acc.2).map
        (fun v => (acc.1 + v.1, v.2)))
    ((0 : ℚ), seed)).map (fun r => ((r.1 - 6) * stdv, r.2))

/-- `utils.tolerance = 1e-6`: the repository's numeric tolerance constant. -/
def tolerance : ℚ := 1 / 1000000

lemma seed_mod_nonneg (s : ℤ) : 0 ≤ (s * 9228907) % 4294967296 :=
  Int.emod_nonneg _ (by norm_num)

lemma seed_mod_lt (s : ℤ) : (s * 9228907) % 4294967296 < 4294967296 :=
  Int.emod_lt_of_pos _ (by norm_num)

end Utils

namespace Materials

/-- The temperature units used by the property records of the claims. -/
inductive TemperatureUnit where
  | kelvin
  | celsius
  deriving DecidableEq, Repr

/-- A pint quantity whose dimensionality is `[temperature]`. -/
structure Temperature where
  magnitude : ℝ
  units : TemperatureUnit

/-- `temperature.to(T_units).magnitude`: pint's affine conversion between
kelvin and celsius, applied to an absolute temperature quantity. -/
noncomputable def Temperature.to_units (T : Temperature) (target : TemperatureUnit) : ℝ :=
  match T.units, target with
  | TemperatureUnit.kelvin, TemperatureUnit.kelvin => T.magnitude
  | TemperatureUnit.kelvin, TemperatureUnit.celsius => T.magnitude - 273.15
  | TemperatureUnit.celsius, TemperatureUnit.kelvin => T.magnitude + 273.15
  | TemperatureUnit.celsius, TemperatureUnit.celsius => T.magnitude

/-- A pint quantity produced by `ureg(P_units) * scalar`: a magnitude tagged
with the declared pressure unit string. -/
structure Pressure where
  magnitude : ℝ
  units : String

/-- The `antoines` block of a component property record:
`a`, `b`, `c`, `base`, `pressure units`, `temperature units`. -/
structure AntoineModel where
  a : ℝ
  b : ℝ
  c : ℝ
  base : ℝ
  pressure_units : String
  temperature_units : TemperatureUnit

/-- The slice of `materials.Component` the vapor-pressure claims use: the
unique name, the molar mass magnitude (g/mol), and the Antoine record. -/
structure Component where
  name : String
  molar_mass : ℝ
  antoines : AntoineModel

/-- `Component.vapor_pressure(temperature)`: converts the temperature to the
record's declared temperature units, then returns
`ureg(P_units) * base ** (A + B / (C + T))`. -/
noncomputable def Component.vapor_pressure (comp : Component)
    (temperature : Temperature) : Pressure :=
  let model := comp.antoines
  let T := temperature.to_units model.temperature_units
  { magnitude := model.base ^ (model.a + model.b / (model.c + T)),
    units := model.pressure_units }

/-- The component of the spec's end-to-end scenario: name "A", molar mass
1 g/mol, Antoine record A=1, B=2, C=3, base=2.71828, units Pa / celsius. -/
noncomputable def componentA : Component :=
  { name := "A"
    molar_mass := 1
    antoines :=
      { a := 1, b := 2, c := 3, base := 2.71828
        pressure_units := "Pa"
        temperature_units := TemperatureUnit.celsius } }

/-- `Rg = 8.314` J/(mol K): the gas constant's magnitude (pint's unit
bookkeeping is elided; the claims are about magnitudes). -/
noncomputable def Rg : ℝ := 8.314

/-- The slice of `materials.Reaction` the rate claims use, carrying the
equal-length invariants that `Reaction._set_properties` enforces at creation
(it raises `IndexError` when they fail, so every constructed reaction
satisfies them). -/
structure Reaction where
  name : String
  components : List String
  stoich : List ℝ
  order : List ℤ
  arrhenius_A : ℝ
  arrhenius_Ea : ℝ
  stoich_length : stoich.length = components.length
  order_length : order.length = components.length

/-- `Reaction.arrhenius(temperature)`: `k = A * exp(-Ea / Rg / T)` with the
temperature in kelvin. -/
noncomputable def Reaction.arrhenius (rxn : Reaction) (T : ℝ) : ℝ :=
  rxn.arrhenius_A * Real.exp (-rxn.arrhenius_Ea / Rg / T)

/-- `Reaction.get_rxn_rate(temperature, components)`: raises `IndexError`
when the concentration list length differs from the reaction's component
count; otherwise starts from the Arrhenius constant and multiplies in
`components[i] ** self.order[i]` for each index, skipping zero orders. -/
noncomputable def Reaction.get_rxn_rate (rxn : Reaction) (T : ℝ)
    (components : List ℝ) : Except PyError ℝ :=
  if components.length ≠ rxn.components.length then
    Except.error PyError.indexError
  else
    Except.ok ((List.range components.length).foldl
      (fun rr i =>
        if rxn.order.getD i 0 = 0 then rr
        else rr * components.getD i 0 ^ rxn.order.getD i 0)
      (rxn.arrhenius T))

/-- `Reaction.get_component_rxn_rates(temperature, components)`: computes the
scalar rate, then assigns `component_rates[val] = self.stoich[key] * rr` for
`key, val in enumerate(self.components)`. -/
noncomputable def Reaction.get_component_rxn_rates (rxn : Reaction) (T : ℝ)
    (components : List ℝ) : Except PyError (List (String × ℝ)) :=
  (rxn.get_rxn_rate T components).map (fun rr =>
    rxn.components.enum.map (fun kv => (kv.2, rxn.stoich.getD kv.1 0 * rr)))

/-- The spec scenario's reaction: components ["A", "B"], stoichiometry
[-1, 1], rate orders [1, 0]. -/
noncomputable def reactionAB : Reaction :=
  { name := "R"
    components := ["A", "B"]
    stoich := [-1, 1]
    order := [1, 0]
    arrhenius_A := 1
    arrhenius_Ea := 0
    stoich_length := rfl
    order_length := rfl }

/-- A reaction whose component list repeats the name "A": admitted by
`Reaction._set_properties`, which only checks list lengths. -/
noncomputable def dupReaction : Reaction :=
  { name := "dup"
    components := ["A", "A"]
    stoich := [1, 2]
    order := [0, 0]
    arrhenius_A := 1
    arrhenius_Ea := 0
    stoich_length := rfl
    order_length := rfl }

end Materials

/-- A pint dimensionality category, as named at `utils.pint_check` call
sites (`'[temperature]'`, `'[pressure]'`, ...). -/
inductive Dimension where
  | temperature
  | pressure
  | length
  | time
  deriving DecidableEq, Repr

/-- A Python value assigned into a quantity-typed slot: either a pint
Quantity (a magnitude with a dimensionality) or some other object. -/
inductive PyValue where
  | quantity (magnitude : ℚ) (dim : Dimension)
  | other
  deriving DecidableEq, Repr

namespace Utils

/-- `utils.pint_check(value, expected_units)`: raises `TypeError` unless
`value` is a pint Quantity whose dimensionality matches `expected_units`;
returns `True` on success. -/
def pint_check (value : PyValue) (expected : Dimension) : Except PyError Bool :=
  match value with
  | PyValue.other => Except.error PyError.typeError
  | PyValue.quantity _ dim =>
      if dim ≠ expected then Except.error PyError.typeError
      else Except.ok true

end Utils

namespace Graph

/-- The warnings emitted via `warnings.warn` by the graph code. -/
inductive Warning where
  | streamExists (id : String)
  | unitExists (id : String)
  | overwritingInlet (stream_id unit_id : String)
  | overwritingOutlet (stream_id unit_id : String)
  | cannotHook (target : List String)
  deriving DecidableEq, Repr

/-- The property slice of `graphing.base.FlowSheetObject`: the private
`_temperature` / `_pressure` slots behind the checked property setters
(`None` before the first successful assignment). -/
structure FlowSheetObject where
  id : String
  temperature : Option PyValue
  pressure : Option PyValue
  deriving DecidableEq, Repr

/-- The `temperature` property setter:
`if utils.pint_check(value, '[temperature]'): self._temperature = value`.
Result: the object after the call together with the raised error, if any;
when `pint_check` raises, the assignment statement never runs. -/
def FlowSheetObject.set_temperature (obj : FlowSheetObject) (value : PyValue) :
    FlowSheetObject × Option PyError :=
  match Utils.pint_check value Dimension.temperature with
  | Except.error e => (obj, some e)
  | Except.ok _ => ({ obj with temperature := some value }, none)

/-- The `pressure` property setter:
`if utils.pint_check(value, '[pressure]'): self._pressure = value`. -/
def FlowSheetObject.set_pressure (obj : FlowSheetObject) (value : PyValue) :
    FlowSheetObject × Option PyError :=
  match Utils.pint_check value Dimension.pressure with
  | Except.error e => (obj, some e)
  | Except.ok _ => ({ obj with pressure := some value }, none)

/-- The dynamic class of a unit-operation node: `Inlet` overrides
`add_inlet` to raise and `Outlet` overrides `add_outlet` to raise; every
other unit-operation subclass inherits the base connection behaviour. -/
inductive UnitKind where
  | generic
  | inlet
  | outlet
  deriving DecidableEq, Repr

/-- The connection slice of `graphing.base.Stream`: the id and the
`_source` / `_sink` attributes (unset before the first assignment), holding
the id of the connected unit. -/
structure Stream where
  id : String
  source : Option String
  sink : Option String
  deriving DecidableEq, Repr

/-- The connection slice of `graphing.base.UnitOperation`: id, dynamic
class, and the `inlets` / `outlets` port dicts mapping a port name to the
id of the connected stream. -/
structure UnitOperation where
  id : String
  kind : UnitKind
  inlets : List (String × String)
  outlets : List (String × String)
  deriving DecidableEq, Repr

/-- `UnitOperation.add_inlet(stream, inlet_id)`: `Inlet` nodes raise
`RuntimeError` ("Cannot add inlet streams to flowsheet inlets"); otherwise
warn when the port name is already taken, store the stream under the port
and set `stream.sink = self`.  Returns the updated unit, the updated stream
and the warnings. -/
def UnitOperation.add_inlet (unit : UnitOperation) (stream : Stream)
    (inlet_id : String) :
    Except PyError (UnitOperation × Stream × List Warning) :=
  match unit.kind with
  | UnitKind.inlet => Except.error PyError.runtimeError
  | _ =>
      let warns :=
        if (dict_get unit.inlets inlet_id).isSome then
          [Warning.overwritingInlet stream.id unit.id]
        else []
      Except.ok
        ({ unit with inlets := dict_set unit.inlets inlet_id stream.id },
          { stream with sink := some unit.id }, warns)

/-- `UnitOperation.add_outlet(stream, outlet_id)`: `Outlet` nodes raise
`RuntimeError`; otherwise warn when `outlet_id` is already a key of the
INLETS dict (the source checks `self.inlets.keys()` here), store the stream
under the outlet port and set `stream.source = self`. -/
def UnitOperation.add_outlet (unit : UnitOperation) (stream : Stream)
    (outlet_id : String) :
    Except PyError (UnitOperation × Stream × List Warning) :=
  match unit.kind with
  | UnitKind.outlet => Except.error PyError.runtimeError
  | _ =>
      let warns :=
        if (dict_get unit.inlets outlet_id).isSome then
          [Warning.overwritingOutlet stream.id unit.id]
        else []
      Except.ok
        ({ unit with outlets := dict_set unit.outlets outlet_id stream.id },
          { stream with source := some unit.id }, warns)

/-- The graph slice of `graph.flowsheet.FlowSheet`: the ordered dicts of
unit operations and streams.  (Sensors hold a reference back to the
flowsheet, so they are modelled separately below.)  Python mutates unit
objects in place; the embedding writes the updated unit back into the dict
instead, which `dict_get` observes identically. -/
structure FlowSheet where
  unit_operations : List (String × UnitOperation)
  streams : List (String × Stream)
  deriving DecidableEq, Repr

/-- `FlowSheet.add_stream(stream, source_id, sink_id, source_port,
sink_port)`: warns when the stream id already exists; looks the source unit
up (`KeyError` when absent), assigns `stream.source` and calls
`source.add_outlet`; then looks the sink unit up, assigns `stream.sink` and
calls `sink.add_inlet`; finally stores the stream.  There is no
self-connection check anywhere on this path. -/
def FlowSheet.add_stream (fs : FlowSheet) (stream : Stream)
    (source_id sink_id source_port sink_port : String) :
    Except PyError (FlowSheet × List Warning) :=
  let warns0 :=
    if (dict_get fs.streams stream.id).isSome then
      [Warning.streamExists stream.id]
    else []
  match dict_get fs.unit_operations source_id with
  | none => Except.error PyError.keyError
  | some source =>
      let stream1 := { stream with source := some source_id }
      match source.add_outlet stream1 source_port with
      | Except.error e => Except.error e
      | Except.ok (source2, stream2, warns1) =>
          let fs1 := { fs with
            unit_operations := dict_set fs.unit_operations source_id source2 }
          match dict_get fs1.unit_operations sink_id with
          | none => Except.error PyError.keyError
          | some sink =>
              let stream3 := { stream2 with sink := some sink_id }
              match sink.add_inlet stream3 sink_port with
              | Except.error e => Except.error e
              | Except.ok (sink2, stream4, warns2) =>
                  let fs2 := { fs1 with
                    unit_operations :=
                      dict_set fs1.unit_operations sink_id sink2 }
                  Except.ok
                    ({ fs2 with
                        streams := dict_set fs2.streams stream.id stream4 },
                      warns0 ++ warns1 ++ warns2)

/-- A Python object tree as traversed by sensor target paths: dicts are
looked up by key (`KeyError` when the key is absent), other objects by
attribute (`AttributeError` when absent), and polled leaves are float
quantities. -/
inductive PyObj where
  | dict (entries : List (String × PyObj)) : PyObj
  | obj (attrs : List (String × PyObj)) : PyObj
  | value (q : ℚ) : PyObj

/-- One step of the hook/poll traversal: `polled = polled[id]` when
`polled` is a dict, `getattr(polled, id)` otherwise. -/
def resolve_step (polled : PyObj) (id : String) : Except PyError PyObj :=
  match polled with
  | PyObj.dict entries =>
      match dict_get entries id with
      | some v => Except.ok v
      | none => Except.error PyError.keyError
  | PyObj.obj attrs =>
      match dict_get attrs id with
      | some v => Except.ok v
      | none => Except.error PyError.attributeError
  | PyObj.value _ => Except.error PyError.attributeError

/-- The traversal `for id in path: polled = ...`, starting from the
flowsheet object. -/
def resolve (root : PyObj) (path : List String) : Except PyError PyObj :=
  path.foldlM resolve_step root

/-- The slice of `graphing.sensors.Sensor` the claims use.  In the source
`_flowsheet` is `None` until the `flowsheet` property is assigned, which
also sets `is_attached`; here `flowsheet` always holds a tree and the
`is_attached` flag guards every use of it, as in the source. -/
structure Sensor where
  id : String
  flowsheet : PyObj
  target : List String
  is_attached : Bool
  is_hooked : Bool
  sensor_offset : Option ℚ
  sensor_stdv : Option ℚ

/-- `Sensor.hook(target)`: raises `RuntimeError` when the sensor is not
attached; otherwise walks `self.target` — the loop iterates over the
PREVIOUSLY stored target list, not the `target` argument — and on success
sets `is_hooked = True` and stores `target`; on a `KeyError` or
`AttributeError` from the walk it warns and leaves the sensor unchanged. -/
def Sensor.hook (sensor : Sensor) (target : List String) :
    Except PyError (Sensor × List Warning) :=
  if !sensor.is_attached then Except.error PyError.runtimeError
  else
    match resolve sensor.flowsheet sensor.target with
    | Except.ok _ =>
        Except.ok ({ sensor with is_hooked := true, target := target }, [])
    | Except.error _ =>
        Except.ok (sensor, [Warning.cannotHook target])

/-- `Sensor.poll()`: returns `None` as soon as the sensor is not both
attached and hooked; otherwise re-resolves the stored target, adds the
offset if one is set, and adds `sensor_stdv * utils.get_prng()` if the
standard deviation is set (advancing the process-wide seed, which is
passed explicitly and returned). -/
def Sensor.poll (sensor : Sensor) (seed : ℤ) :
    Except PyError (Option ℚ × ℤ) :=
  if !(sensor.is_attached && sensor.is_hooked) then Except.ok (none, seed)
  else
    match resolve sensor.flowsheet sensor.target with
    | Except.error e => Except.error e
    | Except.ok (PyObj.value q) =>
        let polled :=
          match sensor.sensor_offset with
          | some off => q + off
          | none => q
        match sensor.sensor_stdv with
        | some stdv =>
            match Utils.get_prng seed with
            | Except.error e => Except.error e
            | Except.ok r => Except.ok (some (polled + stdv * r.1), r.2)
        | none => Except.ok (some polled, seed)
    | Except.ok _ => Except.error PyError.typeError

/-- A flowsheet holding the single generic unit "U" and no streams. -/
def selfLoopFS : FlowSheet :=
  { unit_operations :=
      [("U", { id := "U", kind := UnitKind.generic, inlets := [], outlets := [] })]
    streams := [] }

/-- The unwired stream "S". -/
def streamS : Stream := { id := "S", source := none, sink := none }

/-- A flowsheet holding the generic unit "U" and the boundary `Inlet`
node "I". -/
def inletSinkFS : FlowSheet :=
  { unit_operations :=
      [("U", { id := "U", kind := UnitKind.generic, inlets := [], outlets := [] }),
       ("I", { id := "I", kind := UnitKind.inlet, inlets := [], outlets := [] })]
    streams := [] }

/-- The unwired stream "S2". -/
def streamS2 : Stream := { id := "S2", source := none, sink := none }

/-- A small flowsheet object tree for the sensor claims: a flowsheet whose
`unit_operations` dict is empty. -/
def sensorEnv : PyObj := PyObj.dict [("unit_operations", PyObj.dict [])]

/-- A freshly constructed sensor (empty stored target, not hooked) that has
been attached to `sensorEnv`. -/
def freshSensor : Sensor :=
  { id := "T"
    flowsheet := sensorEnv
    target := []
    is_attached := true
    is_hooked := false
    sensor_offset := none
    sensor_stdv := none }

end Graph

namespace Flowsheet

/-- The slice of `flowsheet/units.py`'s `FlowSheet` that `import_order`
uses: the labels of the registered units (the keys of the `units` dict)
and the stored calculation order. -/
structure FlowSheet where
  units : List String
  order : List String
  deriving DecidableEq, Repr

/-- `FlowSheet.import_order(order_array)`: raises `KeyError` when some
entry of `order_array` is not a registered unit label, then raises
`KeyError` when some registered unit label is missing from `order_array`;
otherwise stores the order unchanged. -/
def FlowSheet.import_order (fs : FlowSheet) (order_array : List String) :
    Except PyError FlowSheet :=
  if order_array.any (fun val => !(fs.units.contains val)) then
    Except.error PyError.keyError
  else if fs.units.any (fun val => !(order_array.contains val)) then
    Except.error PyError.keyError
  else
    Except.ok { fs with order := order_array }

end Flowsheet

end TEP

namespace TEP

/-- C1 counterexample: at the seed state `2^32` — reachable, since
`set_seed` accepts any positive integer — `(s * 9228907) % 2^32 = 0`, so
`get_seed` raises `ValueError` from `set_seed` instead of updating the seed
and returning it, and `get_prng` / `get_prng_pos` raise as well. -/
theorem get_seed_raises_at_modulus_multiple :
    Utils.get_seed 4294967296 = Except.error PyError.valueError ∧
    Utils.get_prng 4294967296 = Except.error PyError.valueError ∧
    Utils.get_prng_pos 4294967296 = Except.error PyError.valueError := by
  refine ⟨?_, ?_, ?_⟩ <;>
    simp [Utils.get_seed, Utils.get_prng, Utils.get_prng_pos, Utils.set_seed,
      Except.map]

/-- C1 amended: for every integer seed state `s` whose update
`(s * 9228907) % 2^32` is nonzero (`set_seed` raises `ValueError` on a zero
update, which happens exactly when `s` is a multiple of `2^32`), one call to
`get_seed` updates the process-wide seed to `s' = (s * 9228907) % 2^32` and
returns `s'`; `get_prng` returns `2*s'/2^32 - 1`, which lies in `[-1, 1]`;
`get_prng_pos` returns `s'/2^32`, which lies in `[0, 1]`. -/
theorem prng_step_spec (s : ℤ) (h : (s * 9228907) % 4294967296 ≠ 0) :
    Utils.get_seed s
      = Except.ok ((s * 9228907) % 4294967296, (s * 9228907) % 4294967296) ∧
    Utils.get_prng s
      = Except.ok
          (2 * (((s * 9228907) % 4294967296 : ℤ) : ℚ) / 4294967296 - 1,
            (s * 9228907) % 4294967296) ∧
    (-1 : ℚ) ≤ 2 * (((s * 9228907) % 4294967296 : ℤ) : ℚ) / 4294967296 - 1 ∧
    2 * (((s * 9228907) % 4294967296 : ℤ) : ℚ) / 4294967296 - 1 ≤ 1 ∧
    Utils.get_prng_pos s
      = Except.ok
          ((((s * 9228907) % 4294967296 : ℤ) : ℚ) / 4294967296,
            (s * 9228907) % 4294967296) ∧
    (0 : ℚ) ≤ (((s * 9228907) % 4294967296 : ℤ) : ℚ) / 4294967296 ∧
    (((s * 9228907) % 4294967296 : ℤ) : ℚ) / 4294967296 ≤ 1 := by
  have hpos : 0 < (s * 9228907) % 4294967296 :=
    lt_of_le_of_ne (Utils.seed_mod_nonneg s) (Ne.symm h)
  have hset : Utils.set_seed ((s * 9228907) % 4294967296)
      = Except.ok ((s * 9228907) % 4294967296) := by
    unfold Utils.set_seed
    rw [if_neg (not_le.2 hpos)]
  have hget : Utils.get_seed s
      = Except.ok ((s * 9228907) % 4294967296, (s * 9228907) % 4294967296) := by
    unfold Utils.get_seed
    rw [hset]
  have h0 : (0 : ℚ) ≤ (((s * 9228907) % 4294967296 : ℤ) : ℚ) := by
    exact_mod_cast Utils.seed_mod_nonneg s
  have h1 : (((s * 9228907) % 4294967296 : ℤ) : ℚ) ≤ 4294967296 := by
    have := Utils.seed_mod_lt s
    exact_mod_cast le_of_lt this
  refine ⟨hget, ?_, ?_, ?_, ?_, ?_, ?_⟩
  · unfold Utils.get_prng
    rw [hget]
    rfl
  · nlinarith
  · nlinarith
  · unfold Utils.get_prng_pos
    rw [hget]
    rfl
  · positivity
  · nlinarith

/-- Witness for `prng_step_spec`: the seed state 1, whose update
`9228907` is nonzero. -/
theorem prng_step_spec_witness :
    ((1 : ℤ) * 9228907) % 4294967296 ≠ 0 ∧
    (Utils.get_seed 1
      = Except.ok ((1 * 9228907) % 4294967296, (1 * 9228907) % 4294967296) ∧
    Utils.get_prng 1
      = Except.ok
          (2 * ((((1 : ℤ) * 9228907) % 4294967296 : ℤ) : ℚ) / 4294967296 - 1,
            (1 * 9228907) % 4294967296) ∧
    (-1 : ℚ) ≤ 2 * ((((1 : ℤ) * 9228907) % 4294967296 : ℤ) : ℚ) / 4294967296 - 1 ∧
    2 * ((((1 : ℤ) * 9228907) % 4294967296 : ℤ) : ℚ) / 4294967296 - 1 ≤ 1 ∧
    Utils.get_prng_pos 1
      = Except.ok
          (((((1 : ℤ) * 9228907) % 4294967296 : ℤ) : ℚ) / 4294967296,
            (1 * 9228907) % 4294967296) ∧
    (0 : ℚ) ≤ ((((1 : ℤ) * 9228907) % 4294967296 : ℤ) : ℚ) / 4294967296 ∧
    ((((1 : ℤ) * 9228907) % 4294967296 : ℤ) : ℚ) / 4294967296 ≤ 1) :=
  ⟨by decide, prng_step_spec 1 (by decide)⟩

/-- C9 counterexample: at the module's initial seed `0`, the update
`(0 * 9228907) % 2^32` is `0`, so the very first `get_seed()` executes
`set_seed(0)`, which raises `ValueError` — `get_seed` does NOT return `0`,
`get_prng` does not return `-1`, and `get_prng_pos` does not return `0`. -/
theorem initial_seed_get_seed_raises :
    Utils.initial_seed = 0 ∧
    Utils.get_seed Utils.initial_seed = Except.error PyError.valueError ∧
    Utils.get_prng Utils.initial_seed = Except.error PyError.valueError ∧
    Utils.get_prng_pos Utils.initial_seed = Except.error PyError.valueError := by
  refine ⟨rfl, ?_, ?_, ?_⟩ <;>
    simp [Utils.initial_seed, Utils.get_seed, Utils.get_prng,
      Utils.get_prng_pos, Utils.set_seed, Except.map]

/-- C9 amended: the module-level seed is initialized to `0`, and `0` is a
fixed point of the raw update `s' = (s * 9228907) mod 2^32`; but `get_seed`
routes the update through `set_seed`, whose positivity guard rejects the
zero result, so before any successful reseed EVERY call to `get_seed`
raises `ValueError` and leaves the seed at `0` — for every number of calls
(an exception leaves the global seed unchanged) — and every `get_prng` and
`get_prng_pos` call raises likewise instead of returning `-1` / `0`. -/
theorem zero_seed_always_raises :
    Utils.initial_seed = 0 ∧
    ((0 : ℤ) * 9228907) % 4294967296 = 0 ∧
    (∀ n : ℕ,
      (fun s => match Utils.get_seed s with
        | Except.ok r => r.2
        | Except.error _ => s)^[n] Utils.initial_seed = 0) ∧
    Utils.get_seed 0 = Except.error PyError.valueError ∧
    Utils.get_prng 0 = Except.error PyError.valueError ∧
    Utils.get_prng_pos 0 = Except.error PyError.valueError := by
  have hzero : Utils.get_seed 0 = Except.error PyError.valueError := by
    simp [Utils.get_seed, Utils.set_seed]
  refine ⟨rfl, by decide, ?_, hzero, ?_, ?_⟩
  · intro n
    induction n with
    | zero => rfl
    | succ k ih =>
        rw [Function.iterate_succ_apply', ih]
        simp [hzero]
  · unfold Utils.get_prng
    rw [hzero]
    rfl
  · unfold Utils.get_prng_pos
    rw [hzero]
    rfl


/-- C2 (code bug): `get_noise(stdv)` never returns
`stdv * (sum of twelve draws - 6)`; its loop body calls `get_prng(i)` with an
argument although `get_prng` takes none, so every call raises `TypeError` at
the first iteration, for every standard deviation and every seed state. -/
theorem get_noise_always_raises (stdv : ℚ) (seed : ℤ) :
    Utils.get_noise stdv seed = Except.error PyError.typeError := by
  rfl

lemma log_base_gt : (0.6931471803 : ℝ) < Real.log 2.71828 := by
  have h2 : Real.log 2 ≤ Real.log 2.71828 :=
    Real.log_le_log (by norm_num) (by norm_num)
  linarith [Real.log_two_gt_d9]

lemma log_base_lt_one : Real.log 2.71828 < 1 := by
  have h : (2.71828 : ℝ) < Real.exp 1 := by
    have := Real.exp_one_gt_d9
    norm_num at this ⊢
    linarith
  have := Real.log_lt_log (by norm_num : (0:ℝ) < 2.71828) h
  rwa [Real.log_exp] at this

/-- C3 counterexample: the claimed instance is false at the stated input.
At 293 K the conversion to the record's declared celsius unit yields
19.85 °C, not 20 °C, so `vapor_pressure` returns
`2.71828 ^ (1 + 2 / (3 + 19.85))` Pa, which exceeds the claimed
`2.71828 ^ (1 + 2 / (3 + 20))` Pa by more than the repository's numeric
tolerance `1e-6` — far outside floating-point tolerance. -/
theorem vapor_pressure_at_293K_misses_claimed_value :
    (Materials.componentA.vapor_pressure
        ⟨293, Materials.TemperatureUnit.kelvin⟩).magnitude
      = (2.71828 : ℝ) ^ ((1 : ℝ) + 2 / (3 + ((293 : ℝ) - 273.15))) ∧
    (2.71828 : ℝ) ^ ((1 : ℝ) + 2 / (3 + ((293 : ℝ) - 273.15))) -
        (2.71828 : ℝ) ^ ((1 : ℝ) + 2 / (3 + 20)) > 1 / 1000000 := by
  constructor
  · rfl
  · have hbpos : (0 : ℝ) < 2.71828 := by norm_num
    have he1 : (2.71828 : ℝ) ^ ((1 : ℝ) + 2 / (3 + ((293 : ℝ) - 273.15)))
        = Real.exp (Real.log 2.71828 * ((1 : ℝ) + 2 / (3 + ((293 : ℝ) - 273.15)))) :=
      Real.rpow_def_of_pos hbpos _
    have he2 : (2.71828 : ℝ) ^ ((1 : ℝ) + 2 / (3 + 20))
        = Real.exp (Real.log 2.71828 * ((1 : ℝ) + 2 / (3 + 20))) :=
      Real.rpow_def_of_pos hbpos _
    rw [he1, he2]
    have hL : (0.6931471803 : ℝ) < Real.log 2.71828 := log_base_gt
    have hexs : (1 : ℝ) + 2 / (3 + ((293 : ℝ) - 273.15))
        = ((1 : ℝ) + 2 / (3 + 20)) + 6 / 10511 := by norm_num
    rw [hexs, mul_add, Real.exp_add]
    have h1 : 1 ≤ Real.exp (Real.log 2.71828 * ((1 : ℝ) + 2 / (3 + 20))) := by
      apply Real.one_le_exp
      have : (0 : ℝ) ≤ Real.log 2.71828 := by linarith
      positivity
    have h2 : Real.log 2.71828 * (6 / 10511) + 1
        ≤ Real.exp (Real.log 2.71828 * (6 / 10511)) :=
      Real.add_one_le_exp _
    nlinarith

/-- C3 amended: `vapor_pressure` first converts the temperature to the
record's declared temperature unit and returns `base ^ (A + B / (C + T))`
tagged in the record's declared pressure unit; for the scenario record
(A=1, B=2, C=3, base=2.71828, units Pa/celsius) the claimed value
`2.71828 ^ (1 + 2 / (3 + 20))` Pa is attained at 293.15 K (which is 20 °C;
293 K is 19.85 °C), and that value lies between 2.9 Pa and 3 Pa (about
2.96 Pa, not the claimed 7.79 Pa). -/
theorem vapor_pressure_spec :
    (∀ (comp : Materials.Component) (T : Materials.Temperature),
      comp.vapor_pressure T =
        { magnitude := comp.antoines.base ^ (comp.antoines.a +
            comp.antoines.b /
              (comp.antoines.c + T.to_units comp.antoines.temperature_units)),
          units := comp.antoines.pressure_units }) ∧
    Materials.componentA.vapor_pressure ⟨293.15, Materials.TemperatureUnit.kelvin⟩
      = { magnitude := (2.71828 : ℝ) ^ ((1 : ℝ) + 2 / (3 + 20)), units := "Pa" } ∧
    2.9 < (2.71828 : ℝ) ^ ((1 : ℝ) + 2 / (3 + 20)) ∧
    (2.71828 : ℝ) ^ ((1 : ℝ) + 2 / (3 + 20)) < 3 := by
  have hbpos : (0 : ℝ) < 2.71828 := by norm_num
  have hval : (2.71828 : ℝ) ^ ((1 : ℝ) + 2 / (3 + 20))
      = Real.exp (Real.log 2.71828 * ((1 : ℝ) + 2 / (3 + 20))) :=
    Real.rpow_def_of_pos hbpos _
  refine ⟨fun comp T => rfl, ?_, ?_, ?_⟩
  · show Materials.Pressure.mk
        ((2.71828 : ℝ) ^ ((1 : ℝ) + 2 / (3 + ((293.15 : ℝ) - 273.15)))) "Pa"
      = Materials.Pressure.mk ((2.71828 : ℝ) ^ ((1 : ℝ) + 2 / (3 + 20))) "Pa"
    norm_num
  · -- lower bound: log 2.71828 > 0.9999, hence the value exceeds
    -- exp(1 + 1.9975/23) ≥ exp 1 * (1 + 1.9975/23) > 2.9
    have hexp_small : Real.exp 0.0001 ≥ 1.0001 := by
      have := Real.add_one_le_exp (0.0001 : ℝ)
      linarith
    have hL9 : (0.9999 : ℝ) < Real.log 2.71828 := by
      have hlt : Real.exp 0.9999 < 2.71828 := by
        have hsplit : Real.exp 1 = Real.exp 0.9999 * Real.exp 0.0001 := by
          rw [← Real.exp_add]; norm_num
        have hub := Real.exp_one_lt_d9
        have hpos := Real.exp_pos (0.9999 : ℝ)
        nlinarith
      have := Real.log_lt_log (Real.exp_pos _) hlt
      rwa [Real.log_exp] at this
    have hlow : Real.exp ((1 : ℝ) + 1.9975 / 23)
        < Real.exp (Real.log 2.71828 * ((1 : ℝ) + 2 / (3 + 20))) := by
      apply Real.exp_lt_exp.2
      nlinarith
    have hsplit : Real.exp ((1 : ℝ) + 1.9975 / 23)
        = Real.exp 1 * Real.exp (1.9975 / 23) := by
      rw [← Real.exp_add]
    have h1 : Real.exp (1.9975 / 23 : ℝ) ≥ 1 + 1.9975 / 23 := by
      have := Real.add_one_le_exp (1.9975 / 23 : ℝ)
      linarith
    have hexp1 := Real.exp_one_gt_d9
    rw [hval]
    nlinarith [Real.exp_pos (1.9975 / 23 : ℝ)]
  · -- upper bound: log 2.71828 < 1, hence the value is below
    -- exp(25/23) = exp 1 * exp(2/23) ≤ exp 1 * 23/21 < 3
    have hLlt := log_base_lt_one
    have hL0 : (0 : ℝ) < Real.log 2.71828 := by
      have := log_base_gt; linarith
    have hup : Real.exp (Real.log 2.71828 * ((1 : ℝ) + 2 / (3 + 20)))
        < Real.exp ((1 : ℝ) + 2 / 23) := by
      apply Real.exp_lt_exp.2
      nlinarith
    have hsplit : Real.exp ((1 : ℝ) + 2 / 23)
        = Real.exp 1 * Real.exp (2 / 23) := by
      rw [← Real.exp_add]
    have h23 : Real.exp (2 / 23 : ℝ) ≤ 23 / 21 := by
      have hneg : (1 : ℝ) - 2 / 23 ≤ Real.exp (-(2 / 23)) := by
        have := Real.add_one_le_exp (-(2 / 23) : ℝ)
        linarith
      have hinv : Real.exp (-(2 / 23) : ℝ) = (Real.exp (2 / 23))⁻¹ :=
        Real.exp_neg _
      have hpos := Real.exp_pos (2 / 23 : ℝ)
      rw [hinv] at hneg
      have hcancel : Real.exp (2 / 23 : ℝ) * (Real.exp (2 / 23 : ℝ))⁻¹ = 1 :=
        mul_inv_cancel₀ (ne_of_gt hpos)
      nlinarith
    have hexp1 := Real.exp_one_lt_d9
    have hpos1 := Real.exp_pos (1 : ℝ)
    rw [hval]
    nlinarith [Real.exp_pos (2 / 23 : ℝ)]

lemma find?_key_of_nodup_keys (l : List (String × ℝ))
    (h : (l.map Prod.fst).Nodup) (k : String) (v : ℝ)
    (hmem : (k, v) ∈ l) : l.find? (fun p => p.1 == k) = some (k, v) := by
  induction l with
  | nil => simp at hmem
  | cons p tl ih =>
      rcases List.mem_cons.1 hmem with heq | htl
      · rw [← heq]
        exact List.find?_cons_of_pos _ (by simp)
      · have hnotin : p.1 ∉ tl.map Prod.fst := (List.nodup_cons.1 h).1
        have hk_in : k ∈ tl.map Prod.fst := List.mem_map.2 ⟨(k, v), htl, rfl⟩
        have hne : ¬(p.1 == k) = true := by
          simp only [beq_iff_eq]
          intro hcontra
          rw [hcontra] at hnotin
          exact hnotin hk_in
        rw [List.find?_cons_of_neg (p := fun q => q.1 == k) (a := p) tl hne]
        exact ih (List.nodup_cons.1 h).2 htl

lemma dict_get_of_nodup_keys (d : List (String × ℝ))
    (hd : (d.map Prod.fst).Nodup) (k : String) (v : ℝ)
    (hmem : (k, v) ∈ d) : dict_get d k = some v := by
  have hrev_nd : (d.reverse.map Prod.fst).Nodup := by
    rw [List.map_reverse]
    exact List.nodup_reverse.2 hd
  have hrev_mem : (k, v) ∈ d.reverse := List.mem_reverse.2 hmem
  unfold dict_get
  rw [find?_key_of_nodup_keys d.reverse hrev_nd k v hrev_mem]
  rfl

/-- C4 counterexample: the claim fails for a reaction whose (ordered)
component list repeats a name.  For components ["A", "A"], stoichiometry
[1, 2], orders [0, 0] at temperature 1 with concentrations [5, 7], the
scalar rate is 1, but the returned dict's entry for the 0-th component "A"
is the LAST assignment `2 * rr = 2`, not the 0-th coefficient times the rate
(`1 * rr = 1`). -/
theorem component_rates_duplicate_name_counterexample :
    Materials.dupReaction.get_rxn_rate 1 [5, 7] = Except.ok 1 ∧
    Materials.dupReaction.get_component_rxn_rates 1 [5, 7]
      = Except.ok [("A", 1), ("A", 2)] ∧
    Materials.dupReaction.components.getD 0 "" = "A" ∧
    dict_get [("A", 1), ("A", 2)] "A" = some 2 ∧
    (2 : ℝ) ≠ Materials.dupReaction.stoich.getD 0 0 * 1 := by
  have hk : Materials.dupReaction.arrhenius 1 = 1 := by
    show (1 : ℝ) * Real.exp (-(0 : ℝ) / 8.314 / 1) = 1
    norm_num
  have hrate : Materials.dupReaction.get_rxn_rate 1 [5, 7] = Except.ok 1 := by
    unfold Materials.Reaction.get_rxn_rate
    rw [if_neg (by simp [Materials.dupReaction])]
    rw [show ([5, 7] : List ℝ).length = 2 from rfl]
    rw [show List.range 2 = [0, 1] from rfl]
    simp [hk, show Materials.dupReaction.order = [0, 0] from rfl]
  refine ⟨hrate, ?_, rfl, ?_, ?_⟩
  · unfold Materials.Reaction.get_component_rxn_rates
    rw [hrate]
    have henum : (Materials.dupReaction.components).enum
        = [(0, "A"), (1, "A")] := rfl
    rw [show ∀ f : ℝ → List (String × ℝ),
          Except.map f (Except.ok 1) = Except.ok (f 1) from fun f => rfl]
    rw [henum]
    simp [Materials.dupReaction]
  · rfl
  · show (2 : ℝ) ≠ ([1, 2] : List ℝ).getD 0 0 * 1
    norm_num

/-- C4 amended: for every reaction whose component names are distinct and
every temperature and concentration list of matching length,
`get_component_rxn_rates` returns a dict whose keys are exactly the
reaction's component names (in order) and whose value for the i-th component
is the i-th stoichiometric coefficient times the scalar rate
`get_rxn_rate(T, concentrations)`; in particular for stoichiometry [-1, 1]
the two rates are negatives of each other.  (For a reaction that repeats a
component name the later assignment overwrites the earlier one.) -/
theorem get_component_rxn_rates_spec (rxn : Materials.Reaction) (T : ℝ)
    (cs : List ℝ) (hlen : cs.length = rxn.components.length)
    (hnd : rxn.components.Nodup) :
    ∃ rr : ℝ, rxn.get_rxn_rate T cs = Except.ok rr ∧
      ∃ d : List (String × ℝ),
        rxn.get_component_rxn_rates T cs = Except.ok d ∧
        d.map Prod.fst = rxn.components ∧
        (∀ i : ℕ, i < rxn.components.length →
          dict_get d (rxn.components.getD i "")
            = some (rxn.stoich.getD i 0 * rr)) ∧
        (rxn.stoich = [-1, 1] →
          dict_get d (rxn.components.getD 0 "") = some (-rr) ∧
          dict_get d (rxn.components.getD 1 "") = some rr) := by
  have hok : rxn.get_rxn_rate T cs = Except.ok
      ((List.range cs.length).foldl
        (fun rr i =>
          if rxn.order.getD i 0 = 0 then rr
          else rr * cs.getD i 0 ^ rxn.order.getD i 0)
        (rxn.arrhenius T)) := by
    unfold Materials.Reaction.get_rxn_rate
    rw [if_neg (by simp [hlen])]
  refine ⟨_, hok, ?_⟩
  set rr := (List.range cs.length).foldl
      (fun rr i =>
        if rxn.order.getD i 0 = 0 then rr
        else rr * cs.getD i 0 ^ rxn.order.getD i 0)
      (rxn.arrhenius T) with hrr
  set d := rxn.components.enum.map
      (fun kv => (kv.2, rxn.stoich.getD kv.1 0 * rr)) with hd
  have hrates : rxn.get_component_rxn_rates T cs = Except.ok d := by
    unfold Materials.Reaction.get_component_rxn_rates
    rw [hok]
    rfl
  have hkeys : d.map Prod.fst = rxn.components := by
    rw [hd, List.map_map]
    have : (Prod.fst ∘ fun kv : ℕ × String =>
        (kv.2, rxn.stoich.getD kv.1 0 * rr)) = Prod.snd := rfl
    rw [this]
    exact List.enum_map_snd rxn.components
  have hvals : ∀ i : ℕ, i < rxn.components.length →
      dict_get d (rxn.components.getD i "")
        = some (rxn.stoich.getD i 0 * rr) := by
    intro i hi
    have hdlen : d.length = rxn.components.length := by
      simp [hd]
    have hdi : d.get ⟨i, by rw [hdlen]; exact hi⟩
        = (rxn.components.get ⟨i, hi⟩, rxn.stoich.getD i 0 * rr) := by
      simp [hd]
    have hmem : (rxn.components.get ⟨i, hi⟩, rxn.stoich.getD i 0 * rr) ∈ d := by
      rw [← hdi]
      exact List.get_mem d _ _
    have hgetD : rxn.components.getD i "" = rxn.components.get ⟨i, hi⟩ := by
      rw [List.getD_eq_getElem?_getD, List.getElem?_eq_getElem hi]
      rfl
    rw [hgetD]
    exact dict_get_of_nodup_keys d (hkeys ▸ hnd) _ _ hmem
  refine ⟨d, hrates, hkeys, hvals, ?_⟩
  intro hstoich
  have hlen2 : rxn.components.length = 2 := by
    rw [← rxn.stoich_length, hstoich]
    rfl
  constructor
  · have := hvals 0 (by omega)
    rw [hstoich] at this
    simpa using this
  · have := hvals 1 (by omega)
    rw [hstoich] at this
    simpa using this

/-- Witness for `get_component_rxn_rates_spec`: the spec scenario's reaction
(components ["A", "B"], stoichiometry [-1, 1], orders [1, 0]) at temperature
1 with the two concentrations [1, 1]. -/
theorem get_component_rxn_rates_spec_witness :
    ([1, 1] : List ℝ).length = Materials.reactionAB.components.length ∧
    Materials.reactionAB.components.Nodup ∧
    (∃ rr : ℝ, Materials.reactionAB.get_rxn_rate 1 [1, 1] = Except.ok rr ∧
      ∃ d : List (String × ℝ),
        Materials.reactionAB.get_component_rxn_rates 1 [1, 1] = Except.ok d ∧
        d.map Prod.fst = Materials.reactionAB.components ∧
        (∀ i : ℕ, i < Materials.reactionAB.components.length →
          dict_get d (Materials.reactionAB.components.getD i "")
            = some (Materials.reactionAB.stoich.getD i 0 * rr)) ∧
        (Materials.reactionAB.stoich = [-1, 1] →
          dict_get d (Materials.reactionAB.components.getD 0 "")
            = some (-rr) ∧
          dict_get d (Materials.reactionAB.components.getD 1 "")
            = some rr)) :=
  ⟨rfl, by decide,
    get_component_rxn_rates_spec Materials.reactionAB 1 [1, 1] rfl (by decide)⟩

/-- C5 counterexample: wiring a stream whose source and sink are the same
generic unit does not fail — `FlowSheet.add_stream` has no self-connection
check.  Wiring "S" from "U" to "U" returns normally with no warning, and the
stored stream has both endpoints equal to "U". -/
theorem add_stream_self_connection_accepted :
    (Graph.selfLoopFS.add_stream Graph.streamS "U" "U" "Outlet" "Inlet").map
        (fun r => (dict_get r.1.streams "S",
          dict_get r.1.unit_operations "U", r.2))
      = Except.ok
          (some { id := "S", source := some "U", sink := some "U" },
            some { id := "U", kind := Graph.UnitKind.generic,
                   inlets := [("Inlet", "S")], outlets := [("Outlet", "S")] },
            ([] : List Graph.Warning)) := by
  rfl

/-- C5 amended: `FlowSheet.add_stream` silently accepts a self-connection
(source and sink the same generic unit), wiring both endpoints with no
error and no warning; adding an inlet stream to an `Inlet` boundary node
does fail with a hard wiring error (`RuntimeError`, the spec taxonomy's
`ConnectionError`) at construction time — both when `add_inlet` is called
directly and through `add_stream` with the `Inlet` node as sink. -/
theorem inlet_refuses_added_inlets (unit : Graph.UnitOperation)
    (stream : Graph.Stream) (port : String)
    (h : unit.kind = Graph.UnitKind.inlet) :
    unit.add_inlet stream port = Except.error PyError.runtimeError ∧
    Graph.inletSinkFS.add_stream Graph.streamS2 "U" "I" "Outlet" "Inlet"
      = Except.error PyError.runtimeError ∧
    (Graph.selfLoopFS.add_stream Graph.streamS "U" "U" "Outlet" "Inlet").map
        (fun r => (dict_get r.1.streams "S", r.2))
      = Except.ok
          (some { id := "S", source := some "U", sink := some "U" },
            ([] : List Graph.Warning)) := by
  refine ⟨?_, rfl, rfl⟩
  unfold Graph.UnitOperation.add_inlet
  rw [h]

/-- Witness for `inlet_refuses_added_inlets`: the `Inlet` node "I" with the
stream "S" on port "Inlet". -/
theorem inlet_refuses_added_inlets_witness :
    ({ id := "I", kind := Graph.UnitKind.inlet, inlets := [], outlets := [] }
        : Graph.UnitOperation).kind = Graph.UnitKind.inlet ∧
    (({ id := "I", kind := Graph.UnitKind.inlet, inlets := [], outlets := [] }
        : Graph.UnitOperation).add_inlet Graph.streamS "Inlet"
      = Except.error PyError.runtimeError ∧
    Graph.inletSinkFS.add_stream Graph.streamS2 "U" "I" "Outlet" "Inlet"
      = Except.error PyError.runtimeError ∧
    (Graph.selfLoopFS.add_stream Graph.streamS "U" "U" "Outlet" "Inlet").map
        (fun r => (dict_get r.1.streams "S", r.2))
      = Except.ok
          (some { id := "S", source := some "U", sink := some "U" },
            ([] : List Graph.Warning))) :=
  ⟨rfl, inlet_refuses_added_inlets _ Graph.streamS "Inlet" rfl⟩

/-- C6: `import_order` fails when the order misses a registered unit label
or contains an unknown one (`KeyError`, the spec taxonomy's `OrderError`),
and succeeds on an exact permutation of the registered labels, storing the
order unchanged. -/
theorem import_order_spec (fs : Flowsheet.FlowSheet) (order : List String) :
    ((∃ u ∈ fs.units, u ∉ order) →
      fs.import_order order = Except.error PyError.keyError) ∧
    ((∃ v ∈ order, v ∉ fs.units) →
      fs.import_order order = Except.error PyError.keyError) ∧
    (order.Perm fs.units →
      fs.import_order order = Except.ok { fs with order := order }) := by
  refine ⟨?_, ?_, ?_⟩
  · rintro ⟨u, hu_units, hu_not⟩
    unfold Flowsheet.FlowSheet.import_order
    by_cases h1 : order.any (fun val => !(fs.units.contains val))
    · rw [if_pos h1]
    · rw [if_neg h1, if_pos ?_]
      rw [List.any_eq_true]
      exact ⟨u, hu_units, by simpa using hu_not⟩
  · rintro ⟨v, hv_order, hv_not⟩
    unfold Flowsheet.FlowSheet.import_order
    rw [if_pos ?_]
    rw [List.any_eq_true]
    exact ⟨v, hv_order, by simpa using hv_not⟩
  · intro hperm
    unfold Flowsheet.FlowSheet.import_order
    rw [if_neg ?_, if_neg ?_]
    · rw [List.any_eq_true]
      rintro ⟨u, hu_units, hu⟩
      simp at hu
      exact hu (hperm.mem_iff.2 hu_units)
    · rw [List.any_eq_true]
      rintro ⟨v, hv_order, hv⟩
      simp at hv
      exact hv (hperm.mem_iff.1 hv_order)

/-- Witness for `import_order_spec`: the flowsheet with units
["a", "b"], exercised with a missing-label order, an unknown-label order,
and an exact permutation. -/
theorem import_order_spec_witness :
    Flowsheet.FlowSheet.import_order ⟨["a", "b"], []⟩ ["a"]
      = Except.error PyError.keyError ∧
    Flowsheet.FlowSheet.import_order ⟨["a", "b"], []⟩ ["a", "b", "c"]
      = Except.error PyError.keyError ∧
    Flowsheet.FlowSheet.import_order ⟨["a", "b"], []⟩ ["b", "a"]
      = Except.ok ⟨["a", "b"], ["b", "a"]⟩ :=
  ⟨(import_order_spec ⟨["a", "b"], []⟩ ["a"]).1 ⟨"b", by simp, by simp⟩,
   (import_order_spec ⟨["a", "b"], []⟩ ["a", "b", "c"]).2.1
     ⟨"c", by simp, by simp⟩,
   (import_order_spec ⟨["a", "b"], []⟩ ["b", "a"]).2.2 (by decide)⟩

/-- C7: the temperature and pressure property setters of graph entities run
`pint_check` before mutating: when the value is not a pint Quantity or has
the wrong dimensionality the setter raises and the stored slot keeps its
prior value (strong exception safety); the value is stored exactly when the
check passes. -/
theorem property_setter_strong_exception_safety
    (obj : Graph.FlowSheetObject) (v : PyValue) :
    (Utils.pint_check v Dimension.temperature = Except.ok true ∨
      Utils.pint_check v Dimension.temperature
        = Except.error PyError.typeError) ∧
    ((∃ e, Utils.pint_check v Dimension.temperature = Except.error e) →
      obj.set_temperature v = (obj, some PyError.typeError)) ∧
    (Utils.pint_check v Dimension.temperature = Except.ok true →
      obj.set_temperature v = ({ obj with temperature := some v }, none)) ∧
    ((∃ e, Utils.pint_check v Dimension.pressure = Except.error e) →
      obj.set_pressure v = (obj, some PyError.typeError)) ∧
    (Utils.pint_check v Dimension.pressure = Except.ok true →
      obj.set_pressure v = ({ obj with pressure := some v }, none)) := by
  have hchk : ∀ dim : Dimension,
      Utils.pint_check v dim = Except.ok true ∨
      Utils.pint_check v dim = Except.error PyError.typeError := by
    intro dim
    unfold Utils.pint_check
    cases v with
    | other => exact Or.inr rfl
    | quantity m d =>
        by_cases h : d = dim
        · subst h; simp
        · simp [h]
  refine ⟨hchk Dimension.temperature, ?_, ?_, ?_, ?_⟩
  · rintro ⟨e, herr⟩
    rcases hchk Dimension.temperature with hok | herr2
    · rw [hok] at herr; cases herr
    · unfold Graph.FlowSheetObject.set_temperature
      rw [herr2]
  · intro hok
    unfold Graph.FlowSheetObject.set_temperature
    rw [hok]
  · rintro ⟨e, herr⟩
    rcases hchk Dimension.pressure with hok | herr2
    · rw [hok] at herr; cases herr
    · unfold Graph.FlowSheetObject.set_pressure
      rw [herr2]
  · intro hok
    unfold Graph.FlowSheetObject.set_pressure
    rw [hok]

/-- Witness for `property_setter_strong_exception_safety`: the fresh object
"o" with a pressure quantity assigned to `temperature` (rejected, prior
`None` retained) and a temperature quantity assigned to `temperature`
(stored). -/
theorem property_setter_strong_exception_safety_witness :
    (∃ e, Utils.pint_check (PyValue.quantity 10 Dimension.pressure)
        Dimension.temperature = Except.error e) ∧
    Graph.FlowSheetObject.set_temperature ⟨"o", none, none⟩
        (PyValue.quantity 10 Dimension.pressure)
      = (⟨"o", none, none⟩, some PyError.typeError) ∧
    Utils.pint_check (PyValue.quantity 10 Dimension.temperature)
        Dimension.temperature = Except.ok true ∧
    Graph.FlowSheetObject.set_temperature ⟨"o", none, none⟩
        (PyValue.quantity 10 Dimension.temperature)
      = (⟨"o", some (PyValue.quantity 10 Dimension.temperature), none⟩, none) :=
  ⟨⟨PyError.typeError, rfl⟩,
    (property_setter_strong_exception_safety ⟨"o", none, none⟩
        (PyValue.quantity 10 Dimension.pressure)).2.1 ⟨PyError.typeError, rfl⟩,
    rfl,
    (property_setter_strong_exception_safety ⟨"o", none, none⟩
        (PyValue.quantity 10 Dimension.temperature)).2.2.1 rfl⟩

/-- C8 (code bug): `Sensor.hook` validates the STALE stored `self.target`
instead of the supplied path, so a freshly attached sensor is marked hooked
by any path whatsoever: hooking `["no_such_key"]` — a path that does not
resolve against the flowsheet (first conjunct) — raises no warning and sets
`is_hooked = True` while storing the unresolvable path (second conjunct),
where the claim requires a warning and `is_hooked` to stay false. -/
theorem hook_marks_hooked_on_unresolvable_path :
    Graph.resolve Graph.sensorEnv ["no_such_key"]
      = Except.error PyError.keyError ∧
    Graph.freshSensor.hook ["no_such_key"]
      = Except.ok ({ Graph.freshSensor with
          is_hooked := true, target := ["no_such_key"] }, []) :=
  ⟨rfl, rfl⟩

/-- C10: polling a sensor that is not attached or not hooked returns `None`
immediately: no exception, no path resolution (the flowsheet tree and the
target are never consulted), and the shared PRNG seed is returned
unchanged. -/
theorem poll_unhooked_returns_none (sensor : Graph.Sensor) (seed : ℤ)
    (h : sensor.is_attached = false ∨ sensor.is_hooked = false) :
    sensor.poll seed = Except.ok (none, seed) := by
  unfold Graph.Sensor.poll
  rcases h with h | h <;> simp [h]

/-- Witness for `poll_unhooked_returns_none`: the attached-but-unhooked
fresh sensor at seed 12345. -/
theorem poll_unhooked_returns_none_witness :
    (Graph.freshSensor.is_attached = false ∨
      Graph.freshSensor.is_hooked = false) ∧
    Graph.freshSensor.poll 12345 = Except.ok (none, 12345) :=
  ⟨Or.inr rfl,
    poll_unhooked_returns_none Graph.freshSensor 12345 (Or.inr rfl)⟩

end TEP
